import Mathlib

/-!
Verification development for the XSD schema-extraction helpers
(`extract_schema.py`): the catalog parser (`create_uri_mapper`), the URI
resolver closure (`uri_mapper`), and the schema extractors
(`extract_element_info`, `extract_type_info`, `extract_complex_type_info`).

Strings are embedded as `List Char`; Python `dict` as an association list
with overwriting insertion; Python attribute presence (`hasattr`) and
value truthiness are modelled with `Option` and explicit truthiness tests.
-/

set_option autoImplicit false

namespace XsdExtract

/-- Strings of the embedded program, as character lists. -/
abbrev Str := List Char

/-- Coerce a Lean string literal into the embedding's string type. -/
def str (s : String) : Str := s.toList

/-- Python truthiness of an optional string: `None` and the empty string
are falsy, every other string is truthy. -/
def truthy : Option Str → Bool
  | none => false
  | some s => decide (s ≠ [])

/-- Python `a or b` on optional strings: `a` when truthy, else `b`. -/
def pyOr (a b : Option Str) : Option Str := if truthy a then a else b

/-- Python `a or b` where the right operand is a plain (always truthy)
string, as in `attr.name or 'unknown'`. -/
def pyOrS (a : Option Str) (b : Str) : Str :=
  match a with
  | some s => if s ≠ [] then s else b
  | none => b

/-- Python substring test `needle in hay` (`'Complex' in type(x).__name__`). -/
def hasSub (needle : Str) : Str → Bool
  | [] => needle.isEmpty
  | c :: rest => needle.isPrefixOf (c :: rest) || hasSub needle rest

/-! ## Schema object model

The external `xmlschema` objects that `extract_schema.py` walks, reduced to
the fields the source reads.  A field the code guards with `hasattr` is an
`Option` whose `none` means the attribute is missing; where the code treats
a missing attribute and a present-but-`None` value identically, the two are
flattened into a single `none`. -/

/-- An attribute's declared type object (`attr.type`): the code reads
`qualified_name` (guarded by `hasattr` and truthiness, flattened here into
`Option`) and otherwise falls back to `str(attr.type)`. -/
structure PyAttrType where
  qualified_name : Option Str
  str_repr : Str
deriving DecidableEq

/-- One declared attribute (`attr` in the comprehension over
`type_obj.attributes.values()`). -/
structure PyAttr where
  name : Option Str
  typ : Option PyAttrType
  use : Option Str
  default : Option Str
deriving DecidableEq

/-- The declared type of one content-model particle (`elem.type`). -/
structure PyParticleType where
  qualified_name : Option Str
  className : Str
deriving DecidableEq

/-- One particle yielded by `content.iter_elements()`. -/
structure PyParticle where
  qualified_name : Option Str
  name : Option Str
  typ : Option PyParticleType
  min_occurs : Option (Option Nat)
  max_occurs : Option (Option Nat)
deriving DecidableEq

/-- Outcome of the guarded call `list(type_obj.content.iter_elements())`:
the content object may lack the `iter_elements` attribute, the call may
raise, or it may return a list of particles. -/
inductive IterElemsResult where
  | unsupported
  | failure
  | ok (elems : List PyParticle)
deriving DecidableEq

/-- A content-model object (`type_obj.content`): the code reads its class
name and, guardedly, iterates its elements. -/
structure PyContent where
  className : Str
  iter_elements : IterElemsResult
deriving DecidableEq

/-- A type object as read by `extract_type_info` / `extract_complex_type_info`.
`content = none` covers both a missing `content` attribute and a falsy one
(the code guards with `hasattr(type_obj, 'content') and type_obj.content`);
`attributes = none` means the `attributes` attribute is missing, while
`some []` is a present but empty (hence falsy) collection. -/
structure PyType where
  qualified_name : Option Str
  name : Option Str
  className : Str
  content : Option PyContent
  attributes : Option (List PyAttr)
deriving DecidableEq

/-- An element object as read by `extract_element_info`.  `min_occurs`,
`max_occurs` and `nillable` keep the two-level shape (outer `Option` is
`hasattr`, inner value is the Python value, itself possibly `None` for
`max_occurs`); `default` is flattened since a missing attribute and a
`None` value produce the same output. -/
structure PyElement where
  qualified_name : Option Str
  name : Option Str
  typ : Option PyType
  min_occurs : Option (Option Nat)
  max_occurs : Option (Option Nat)
  nillable : Option Bool
  default : Option Str
deriving DecidableEq

/-! ## Extraction output

The `info` dictionaries built by the extractors.  A key the code sets only
conditionally is an `Option` field whose `none` means the key is absent;
keys set unconditionally are plain fields (with `Option` for values that
may be Python `None`). -/

/-- One entry of `info['attributes']`. -/
structure AttrInfo where
  name : Str
  typ : Str
  use : Str
  default : Option Str
deriving DecidableEq

/-- One entry of `info['child_elements']`. -/
structure ChildInfo where
  name : Str
  typ : Str
  min_occurs : Option Nat
  max_occurs : Option Nat
deriving DecidableEq

/-- The dictionary built by `extract_type_info` / `extract_complex_type_info`. -/
structure TypeInfo where
  name : Option Str
  qualified_name : Option Str
  category : Str
  is_complex : Bool
  is_simple : Bool
  content_model : Option Str
  attributes : Option (List AttrInfo)
  child_elements : Option (List ChildInfo)
deriving DecidableEq

/-- The dictionary built by `extract_element_info`. -/
structure ElementInfo where
  name : Option Str
  qualified_name : Option Str
  typ : Option TypeInfo
  min_occurs : Option Nat
  max_occurs : Option Nat
  nillable : Bool
  default : Option Str
deriving DecidableEq

/-- One attribute entry of the comprehension in `extract_type_info`:
name (`attr.name or 'unknown'`), type (qualified name if present and
truthy, else `str(attr.type)`, else `'xs:string'` when `attr.type` is
falsy), use (`attr.use` if present and truthy else `'optional'`), and
default (`attr.default` if present else `None`). -/
def extractAttr (a : PyAttr) : AttrInfo :=
  { name := pyOrS a.name (str "unknown")
    typ := match a.typ with
      | none => str "xs:string"
      | some t => pyOrS t.qualified_name t.str_repr
    use := pyOrS a.use (str "optional")
    default := a.default }

/-- One child-element entry of the comprehension over `iter_elements()`. -/
def extractChild (e : PyParticle) : ChildInfo :=
  { name := pyOrS (pyOr e.qualified_name e.name) (str "unknown")
    typ := match e.typ with
      | none => str "unknown"
      | some t => pyOrS t.qualified_name t.className
    min_occurs := match e.min_occurs with
      | none => some 1
      | some v => v
    max_occurs := match e.max_occurs with
      | none => some 1
      | some v => v }

/-- Embedding of `extract_type_info`: category data comes from the class
name (`'Complex' in ...`, `'Simple' in ...`); `content_model` is set when
`content` is present and truthy; `attributes` is set only when the
attribute collection is present and non-empty; `child_elements` is set
only when the content supports `iter_elements`, the call succeeds, and it
yields a non-empty list — a raised error is swallowed (`except: pass`). -/
def extract_type_info (t : PyType) : TypeInfo :=
  { name := t.qualified_name
    qualified_name := t.qualified_name
    category := t.className
    is_complex := hasSub (str "Complex") t.className
    is_simple := hasSub (str "Simple") t.className
    content_model := t.content.map (·.className)
    attributes := match t.attributes with
      | some l => if l.isEmpty then none else some (l.map extractAttr)
      | none => none
    child_elements := match t.content with
      | none => none
      | some c => match c.iter_elements with
          | .ok l => if l.isEmpty then none else some (l.map extractChild)
          | _ => none }

/-- Embedding of `extract_complex_type_info`: like `extract_type_info` but
the category flags are asserted (`is_complex = True`, `is_simple = False`)
and `name` falls back from qualified name to local name. -/
def extract_complex_type_info (t : PyType) : TypeInfo :=
  { name := pyOr t.qualified_name t.name
    qualified_name := pyOr t.qualified_name t.name
    category := t.className
    is_complex := true
    is_simple := false
    content_model := t.content.map (·.className)
    attributes := match t.attributes with
      | some l => if l.isEmpty then none else some (l.map extractAttr)
      | none => none
    child_elements := match t.content with
      | none => none
      | some c => match c.iter_elements with
          | .ok l => if l.isEmpty then none else some (l.map extractChild)
          | _ => none }

/-- Embedding of `extract_element_info`: every key of the dictionary is
set unconditionally; occurrence bounds default to `1` exactly when the
attribute is missing, `nillable` defaults to `False`, `default` to `None`. -/
def extract_element_info (e : PyElement) : ElementInfo :=
  { name := pyOr e.qualified_name e.name
    qualified_name := pyOr e.qualified_name e.name
    typ := e.typ.map extract_type_info
    min_occurs := match e.min_occurs with
      | none => some 1
      | some v => v
    max_occurs := match e.max_occurs with
      | none => some 1
      | some v => v
    nillable := e.nillable.getD false
    default := e.default }

/-! ## URI resolver (`uri_mapper`) -/

/-- Hexadecimal digit test, as accepted by `urllib.parse.unquote`. -/
def isHexDigit (c : Char) : Bool :=
  (decide ('0' ≤ c) && decide (c ≤ '9')) ||
  (decide ('a' ≤ c) && decide (c ≤ 'f')) ||
  (decide ('A' ≤ c) && decide (c ≤ 'F'))

/-- Numeric value of a hexadecimal digit. -/
def hexVal (c : Char) : Nat :=
  if c ≤ '9' then c.toNat - '0'.toNat
  else if c ≤ 'F' then c.toNat - 'A'.toNat + 10
  else c.toNat - 'a'.toNat + 10

/-- Percent-decoding as performed by `urllib.parse.unquote` on ASCII
input: each `%XX` with two hex digits becomes the character with code
`XX`; a `%` not followed by two hex digits is kept literally.  (Multi-byte
UTF-8 escape sequences are out of scope; the catalog URNs are ASCII.) -/
def unquote : Str → Str
  | '%' :: a :: b :: rest =>
      if isHexDigit a && isHexDigit b then
        Char.ofNat (16 * hexVal a + hexVal b) :: unquote rest
      else '%' :: unquote (a :: b :: rest)
  | c :: rest => c :: unquote rest
  | [] => []

/-- Embedding of the closure `uri_mapper` returned by `create_uri_mapper`,
over a catalog map `m`: `None` input returns `None`; otherwise
`resolved = urn_map.get(unquote(uri)) or urn_map.get(uri)` with Python
truthiness, and a falsy `resolved` falls back to the original input. -/
def uri_mapper (m : List (Str × Str)) (uri : Option Str) : Option Str :=
  match uri with
  | none => none
  | some u =>
      let resolved := pyOr (List.lookup (unquote u) m) (List.lookup u m)
      if truthy resolved then resolved else some u

/-! ## Catalog parser (`create_uri_mapper`) -/

/-- Python whitespace characters stripped by `str.strip()` (ASCII range). -/
def isPySpace (c : Char) : Bool :=
  c = ' ' || c = '\t' || c = '\n' || c = '\x0d' || c = '\x0b' || c = '\x0c'

/-- Python `line.strip()`: drop whitespace from both ends. -/
def stripPy (l : Str) : Str :=
  ((l.dropWhile isPySpace).reverse.dropWhile isPySpace).reverse

/-- Python `line.split(sep)` for a one-character separator: always returns
at least one (possibly empty) field. -/
def splitOn (sep : Char) : Str → List Str
  | [] => [[]]
  | c :: rest =>
      if c = sep then [] :: splitOn sep rest
      else
        match splitOn sep rest with
        | [] => [[c]]
        | s :: ss => (c :: s) :: ss

/-- Python `pathlib` path division `a / b`: an absolute right operand
replaces the left one, otherwise the parts are concatenated with `/`
(redundant slashes are removed later by `resolvePath`). -/
def joinPath (a b : Str) : Str :=
  if b.head? = some '/' then b else a ++ '/' :: b

/-- Process `/`-separated segments left to right, dropping empty and `.`
segments and letting `..` pop the previously kept segment (staying at the
root when there is none); `acc` holds the kept segments in reverse. -/
def canonSegs (acc : List Str) : List Str → List Str
  | [] => acc.reverse
  | s :: rest =>
      if s.isEmpty || s = ['.'] then canonSegs acc rest
      else if s = ['.', '.'] then canonSegs acc.tail rest
      else canonSegs (s :: acc) rest

/-- `str(Path(p).resolve())` for an absolute path `p` with no symbolic
links: lexical canonicalization of the segments.  (The catalog directory
in every claim is absolute, so the current-working-directory case of
`Path.resolve` does not arise.) -/
def resolvePath (p : Str) : Str :=
  '/' :: List.intercalate ['/'] (canonSegs [] (splitOn '/' p))

/-- `Path(p).parent` (used for `catalog_dir`). -/
def parentDir (p : Str) : Str :=
  let segs := (splitOn '/' p).filter (fun s => !s.isEmpty)
  if p.head? = some '/' then
    if segs.dropLast.isEmpty then str "/"
    else '/' :: List.intercalate ['/'] segs.dropLast
  else
    if segs.dropLast.isEmpty then str "."
    else List.intercalate ['/'] segs.dropLast

/-- Python `dict` assignment `m[k] = v`: replace the value in place when
the key is present, append the pair otherwise. -/
def insertOvr : List (Str × Str) → Str → Str → List (Str × Str)
  | [], k, v => [(k, v)]
  | e :: rest, k, v =>
      if e.1 = k then (k, v) :: rest else e :: insertOvr rest k v

/-- State threaded through the line loop of `create_uri_mapper`:
`current_base` and the accumulated `urn_map`. -/
structure CatState where
  base : Option Str
  map : List (Str × Str)

/-- The absolute path stored for a `URI` line:
`catalog_dir / current_base / local_path` when a base is set, else
`catalog_dir / local_path`. -/
def uriFullPath (dir : Str) (base : Option Str) (p : Str) : Str :=
  match base with
  | some b => joinPath (joinPath dir b) p
  | none => joinPath dir p

/-- The body of the line loop of `create_uri_mapper`, applied to an
already-stripped line: skip empty and `--` comment lines; a `BASE` line
with at least one quoted field sets `current_base` (stripping one leading
`../../`); a `URI` line with at least two quoted fields inserts
`parts[1] -> str((catalog_dir / base? / parts[3]).resolve())`; every
other line is ignored. -/
def catStepStripped (dir : Str) (st : CatState) (l : Str) : CatState :=
  if l.isEmpty then st
  else if (str "--").isPrefixOf l then st
  else if (str "BASE").isPrefixOf l then
    match splitOn '"' l with
    | _ :: b :: _ =>
        let b := if (str "../../").isPrefixOf b then b.drop 6 else b
        { st with base := some b }
    | _ => st
  else if (str "URI").isPrefixOf l then
    match splitOn '"' l with
    | _ :: urn :: _ :: p :: _ =>
        { st with map := insertOvr st.map urn (resolvePath (uriFullPath dir st.base p)) }
    | _ => st
  else st

/-- One iteration of the line loop of `create_uri_mapper`: `line.strip()`
followed by the directive dispatch. -/
def catStep (dir : Str) (st : CatState) (line : Str) : CatState :=
  catStepStripped dir st (stripPy line)

/-- The line loop of `create_uri_mapper`, run over a catalog directory and
the file's lines, starting with no base and an empty map. -/
def parseCatalogDir (dir : Str) (lines : List Str) : CatState :=
  lines.foldl (catStep dir) ⟨none, []⟩

/-- The `urn_map` built by `create_uri_mapper(catalog_path)` from the
catalog file's lines: the catalog directory is `Path(catalog_path).parent`. -/
def create_uri_map (catalogPath : Str) (lines : List Str) : List (Str × Str) :=
  (parseCatalogDir (parentDir catalogPath) lines).map

/-- A catalog line `BASE "../../X"`, for an arbitrary base path `X`. -/
def baseLine (X : Str) : Str :=
  str "BASE " ++ '"' :: ((str "../../" ++ X) ++ ['"'])

/-- A catalog line `URI "urn" "p"` with two quoted fields, as in the
OASIS TR9401 format the parser is written against. -/
def uriLine (urn p : Str) : Str :=
  str "URI " ++ '"' :: (urn ++ '"' :: (str " " ++ '"' :: (p ++ ['"'])))

/-! ## Concrete instances used in the theorems below -/

/-- The two-line catalog of the worked example: a `BASE` directive and a
three-quoted-field `URI` directive. -/
def exampleCatalogLines : List Str :=
  [str "BASE \"../../schemas/\"",
   str "URI \"urn:example:foo\" \"ignored\" \"foo.xsd\""]

/-- A complex type whose attribute collection is present but empty. -/
def zeroAttrType : PyType :=
  { qualified_name := some (str "ns:T")
    name := some (str "T")
    className := str "XsdComplexType"
    content := none
    attributes := some [] }

/-! ## Theorems

First, auxiliary lemmas about stripping, quote-splitting and the
overwriting map insertion; then one theorem (plus witness or
counterexample) per specification claim. -/

theorem isPrefixOf_append_self (l r : Str) : l.isPrefixOf (l ++ r) = true := by
  induction l with
  | nil => simp [List.isPrefixOf]
  | cons a as ih => simp [List.isPrefixOf, ih]

theorem dropWhile_eq_self_of_head (p : Char → Bool) (l : Str) (c : Char)
    (hc : l.head? = some c) (hp : p c = false) : l.dropWhile p = l := by
  cases l with
  | nil => cases hc
  | cons a t =>
      obtain rfl : a = c := by simpa using hc
      simp [List.dropWhile_cons, hp]

theorem stripPy_append_single (m : Str) (x c : Char)
    (h1 : (m ++ [x]).head? = some c) (hc : isPySpace c = false)
    (hx : isPySpace x = false) : stripPy (m ++ [x]) = m ++ [x] := by
  unfold stripPy
  rw [dropWhile_eq_self_of_head _ _ c h1 hc,
    dropWhile_eq_self_of_head _ (m ++ [x]).reverse x (by simp) hx]
  simp

theorem splitOn_sep_append (sep : Char) (a rest : Str) (h : ∀ c ∈ a, c ≠ sep) :
    splitOn sep (a ++ sep :: rest) = a :: splitOn sep rest := by
  induction a with
  | nil => simp [splitOn]
  | cons x xs ih =>
      have hx : x ≠ sep := h x (by simp)
      have hxs : ∀ c ∈ xs, c ≠ sep := fun c hc => h c (by simp [hc])
      simp [splitOn, hx, ih hxs]

theorem uriLine_concat (urn p : Str) :
    uriLine urn p =
      (str "URI " ++ '"' :: (urn ++ '"' :: (str " " ++ '"' :: p))) ++ ['"'] := by
  simp [uriLine, List.append_assoc]

theorem baseLine_concat (X : Str) :
    baseLine X = (str "BASE " ++ '"' :: (str "../../" ++ X)) ++ ['"'] := by
  simp [baseLine, List.append_assoc]

theorem stripPy_baseLine (X : Str) : stripPy (baseLine X) = baseLine X := by
  rw [baseLine_concat]
  exact stripPy_append_single _ _ 'B' rfl rfl rfl

theorem stripPy_uriLine (urn p : Str) :
    stripPy (uriLine urn p) = uriLine urn p := by
  rw [uriLine_concat]
  exact stripPy_append_single _ _ 'U' rfl rfl rfl

theorem splitOn_baseLine (X : Str) (hX : ∀ c ∈ X, c ≠ '"') :
    splitOn '"' (baseLine X) = [str "BASE ", str "../../" ++ X, []] := by
  unfold baseLine
  rw [splitOn_sep_append _ _ _ (by decide),
    splitOn_sep_append _ _ _ (fun c hc => (List.mem_append.mp hc).elim
      ((by decide : ∀ c ∈ str "../../", c ≠ '"') c) (hX c))]
  rfl

theorem splitOn_uriLine (urn p : Str) (hu : ∀ c ∈ urn, c ≠ '"')
    (hp : ∀ c ∈ p, c ≠ '"') :
    splitOn '"' (uriLine urn p) = [str "URI ", urn, str " ", p, []] := by
  unfold uriLine
  rw [splitOn_sep_append _ _ _ (by decide), splitOn_sep_append _ _ _ hu,
    splitOn_sep_append _ _ _ (by decide), splitOn_sep_append _ _ _ hp]
  rfl

theorem catStep_baseLine (dir : Str) (st : CatState) (X : Str)
    (hX : ∀ c ∈ X, c ≠ '"') :
    catStep dir st (baseLine X) = { st with base := some X } := by
  show catStepStripped dir st (stripPy (baseLine X)) = _
  rw [stripPy_baseLine]
  unfold catStepStripped
  rw [if_neg (by simp [show (baseLine X).isEmpty = false from rfl]),
    if_neg (by simp [show (str "--").isPrefixOf (baseLine X) = false from rfl]),
    if_pos (show (str "BASE").isPrefixOf (baseLine X) = true from rfl),
    splitOn_baseLine X hX]
  simp [isPrefixOf_append_self, show (str "../../" ++ X).drop 6 = X from rfl]

theorem catStep_uriLine (dir : Str) (st : CatState) (urn p : Str)
    (hu : ∀ c ∈ urn, c ≠ '"') (hp : ∀ c ∈ p, c ≠ '"') :
    catStep dir st (uriLine urn p) =
      { st with
          map := insertOvr st.map urn (resolvePath (uriFullPath dir st.base p)) } := by
  show catStepStripped dir st (stripPy (uriLine urn p)) = _
  rw [stripPy_uriLine]
  unfold catStepStripped
  rw [if_neg (by simp [show (uriLine urn p).isEmpty = false from rfl]),
    if_neg (by simp [show (str "--").isPrefixOf (uriLine urn p) = false from rfl]),
    if_neg (by simp [show (str "BASE").isPrefixOf (uriLine urn p) = false from rfl]),
    if_pos (show (str "URI").isPrefixOf (uriLine urn p) = true from rfl),
    splitOn_uriLine urn p hu hp]

theorem lookup_insertOvr_self (m : List (Str × Str)) (k v : Str) :
    List.lookup k (insertOvr m k v) = some v := by
  induction m with
  | nil => simp [insertOvr, List.lookup]
  | cons e rest ih =>
      by_cases h : e.1 = k
      · simp [insertOvr, h, List.lookup]
      · have hb : (k == e.1) = false := beq_eq_false_iff_ne.mpr (Ne.symm h)
        simp [insertOvr, h, List.lookup, hb, ih]

theorem lookup_insertOvr_of_ne (m : List (Str × Str)) (k v k' : Str)
    (h : k' ≠ k) : List.lookup k' (insertOvr m k v) = List.lookup k' m := by
  induction m with
  | nil =>
      have hb : (k' == k) = false := beq_eq_false_iff_ne.mpr h
      simp [insertOvr, List.lookup, hb]
  | cons e rest ih =>
      by_cases he : e.1 = k
      · subst he
        have hb : (k' == e.1) = false := beq_eq_false_iff_ne.mpr h
        simp [insertOvr, List.lookup, hb]
      · cases hke : (k' == e.1) <;>
          simp [insertOvr, he, List.lookup, hke, ih]

theorem mem_keys_insertOvr (m : List (Str × Str)) (k v a : Str)
    (h : a ∈ (insertOvr m k v).map Prod.fst) :
    a ∈ m.map Prod.fst ∨ a = k := by
  induction m with
  | nil => exact Or.inr (by simpa [insertOvr] using h)
  | cons e rest ih =>
      by_cases he : e.1 = k
      · simp only [insertOvr, if_pos he, List.map_cons, List.mem_cons] at h
        rcases h with h | h
        · exact Or.inr h
        · exact Or.inl (by simp only [List.map_cons, List.mem_cons]; exact Or.inr h)
      · simp only [insertOvr, if_neg he, List.map_cons, List.mem_cons] at h
        rcases h with h | h
        · exact Or.inl (by simp [h])
        · rcases ih h with h | h
          · exact Or.inl (by simp only [List.map_cons, List.mem_cons]; exact Or.inr h)
          · exact Or.inr h

theorem nodup_keys_insertOvr (m : List (Str × Str)) (k v : Str)
    (h : (m.map Prod.fst).Nodup) : ((insertOvr m k v).map Prod.fst).Nodup := by
  induction m with
  | nil => simp [insertOvr]
  | cons e rest ih =>
      simp only [List.map_cons, List.nodup_cons] at h
      by_cases he : e.1 = k
      · subst he
        simpa [insertOvr, List.nodup_cons] using h
      · simp only [insertOvr, if_neg he, List.map_cons, List.nodup_cons]
        refine ⟨?_, ih h.2⟩
        intro hmem
        rcases mem_keys_insertOvr rest k v e.1 hmem with hm | hm
        · exact h.1 hm
        · exact he hm

theorem nodup_keys_catStep (dir : Str) (st : CatState) (line : Str)
    (h : (st.map.map Prod.fst).Nodup) :
    (((catStep dir st line).map).map Prod.fst).Nodup := by
  show (((catStepStripped dir st (stripPy line)).map).map Prod.fst).Nodup
  unfold catStepStripped
  split
  · exact h
  split
  · exact h
  split
  · split
    · exact h
    · exact h
  split
  · split
    · exact nodup_keys_insertOvr _ _ _ h
    · exact h
  · exact h

theorem nodup_keys_foldl (dir : Str) (lines : List Str) (st : CatState)
    (h : (st.map.map Prod.fst).Nodup) :
    ((lines.foldl (catStep dir) st).map.map Prod.fst).Nodup := by
  induction lines generalizing st with
  | nil => exact h
  | cons l ls ih => exact ih _ (nodup_keys_catStep dir st l h)

/-- C1 (counterexample): for the catalog at `/cat/catalog.xml` containing
`BASE "../../schemas/"` and `URI "urn:example:foo" "ignored" "foo.xsd"`,
the stored path is not `/cat/schemas/foo.xsd`: the code takes `parts[3]`
of the quote-split, which is the second quoted field `"ignored"`, not the
third. -/
theorem c1_third_field_counterexample :
    List.lookup (str "urn:example:foo")
      (create_uri_map (str "/cat/catalog.xml") exampleCatalogLines) ≠
    some (str "/cat/schemas/foo.xsd") := by decide

/-- C1 (amended): parsing that catalog yields the map entry
`"urn:example:foo" -> "/cat/schemas/ignored"` — the local path is taken
from the second quoted field of the `URI` line and the third quoted field
is the one ignored. -/
theorem c1_second_field_is_local_path :
    List.lookup (str "urn:example:foo")
      (create_uri_map (str "/cat/catalog.xml") exampleCatalogLines) =
    some (str "/cat/schemas/ignored") := by decide

/-- C2: in any catalog whose lines end with a `BASE "../../X"` line
followed by a `URI` line with extracted fields `(urn, p)`, the stored
resolved path for `urn` is `canonicalize(catalog_dir / X / p)`: the
leading `../../` of the `BASE` value is stripped exactly once before
joining, not applied as parent-directory traversal. -/
theorem base_dotdot_stripped_join (dir : Str) (pre : List Str) (X p urn : Str)
    (hX : ∀ c ∈ X, c ≠ '"') (hu : ∀ c ∈ urn, c ≠ '"')
    (hp : ∀ c ∈ p, c ≠ '"') :
    List.lookup urn
      (parseCatalogDir dir (pre ++ [baseLine X, uriLine urn p])).map =
    some (resolvePath (joinPath (joinPath dir X) p)) := by
  unfold parseCatalogDir
  rw [List.foldl_append]
  simp only [List.foldl_cons, List.foldl_nil]
  rw [catStep_baseLine _ _ _ hX, catStep_uriLine _ _ _ _ hu hp]
  exact lookup_insertOvr_self _ _ _

/-- C2 (witness): the catalog `BASE "../../schemas"`, `URI "urn:x" "foo.xsd"`
under `/cat` resolves `urn:x` to the canonicalized join. -/
theorem base_dotdot_stripped_join_witness :
    List.lookup (str "urn:x")
      (parseCatalogDir (str "/cat")
        ([] ++ [baseLine (str "schemas"), uriLine (str "urn:x") (str "foo.xsd")])).map =
    some (resolvePath (joinPath (joinPath (str "/cat") (str "schemas")) (str "foo.xsd"))) :=
  base_dotdot_stripped_join (str "/cat") [] (str "schemas") (str "foo.xsd")
    (str "urn:x") (by decide) (by decide) (by decide)

/-- C9: the `urn_map` has unique keys at every point during parsing (every
intermediate state is the parse of a prefix of the lines, and every parse
result has pairwise-distinct keys), and the parser's insertion overwrites:
inserting for an existing urn replaces its value and leaves every other
urn's mapping unchanged, so the final mapping for each urn is the one from
the last `URI` line that declared it. -/
theorem urn_map_unique_keys_overwrite (dir : Str) (lines : List Str)
    (m : List (Str × Str)) (k v k' : Str) (hk : k' ≠ k) :
    ((parseCatalogDir dir lines).map.map Prod.fst).Nodup ∧
    List.lookup k (insertOvr m k v) = some v ∧
    List.lookup k' (insertOvr m k v) = List.lookup k' m :=
  ⟨nodup_keys_foldl dir lines ⟨none, []⟩ (by simp),
   lookup_insertOvr_self m k v,
   lookup_insertOvr_of_ne m k v k' hk⟩

/-- C9 (witness): a one-entry map overwritten at its key keeps key `a`
mapped to the new value and leaves the absent key `b` absent. -/
theorem urn_map_unique_keys_overwrite_witness :
    ((parseCatalogDir (str "/cat")
        [baseLine (str "s"), uriLine (str "u") (str "q.xsd")]).map.map Prod.fst).Nodup ∧
    List.lookup (str "a") (insertOvr [(str "a", str "x")] (str "a") (str "y")) =
      some (str "y") ∧
    List.lookup (str "b") (insertOvr [(str "a", str "x")] (str "a") (str "y")) =
      List.lookup (str "b") [(str "a", str "x")] :=
  urn_map_unique_keys_overwrite (str "/cat")
    [baseLine (str "s"), uriLine (str "u") (str "q.xsd")]
    [(str "a", str "x")] (str "a") (str "y") (str "b") (by decide)

/-- C3 (counterexample): with the catalog map `[("a%31", "/p")]`, the URI
`"a%31"` is itself a key and percent-decodes to `"a1"`, yet `resolve` on
the encoded form returns the mapped path `/p` while `resolve` on the
decoded form returns `"a1"` unchanged — not the same mapped path, so the
claim fails when only the encoded form is a key. -/
theorem resolve_encoded_key_counterexample :
    List.lookup (str "a%31") [(str "a%31", str "/p")] = some (str "/p") ∧
    unquote (str "a%31") = str "a1" ∧
    uri_mapper [(str "a%31", str "/p")] (some (str "a%31")) = some (str "/p") ∧
    uri_mapper [(str "a%31", str "/p")] (some (str "a1")) = some (str "a1") := by
  decide

/-- C3 (amended): whenever the percent-decoded form `d` of a non-null URI
`u` is a key of the map, the mapped value is non-empty, and `d` is itself
free of percent-escapes (decoding it is the identity), `resolve` returns
the same mapped path on `u` and on `d` (the decoded-form lookup is tried
first). -/
theorem resolve_decoded_key_agrees (m : List (Str × Str)) (u d v : Str)
    (hd : unquote u = d) (hfix : unquote d = d)
    (hv : List.lookup d m = some v) (hne : v ≠ []) :
    uri_mapper m (some u) = some v ∧ uri_mapper m (some d) = some v := by
  constructor
  · simp [uri_mapper, hd, hv, pyOr, truthy, hne]
  · simp [uri_mapper, hfix, hv, pyOr, truthy, hne]

/-- C3 (witness for the amended theorem): the map from the worked example,
queried with the percent-encoded and the plain form of the URN. -/
theorem resolve_decoded_key_agrees_witness :
    uri_mapper [(str "urn:example:foo", str "/cat/schemas/foo.xsd")]
      (some (str "urn%3Aexample%3Afoo")) = some (str "/cat/schemas/foo.xsd") ∧
    uri_mapper [(str "urn:example:foo", str "/cat/schemas/foo.xsd")]
      (some (str "urn:example:foo")) = some (str "/cat/schemas/foo.xsd") :=
  resolve_decoded_key_agrees
    [(str "urn:example:foo", str "/cat/schemas/foo.xsd")]
    (str "urn%3Aexample%3Afoo") (str "urn:example:foo")
    (str "/cat/schemas/foo.xsd") (by decide) (by decide) (by decide) (by decide)

/-- C4: `resolve` on a null URI returns null immediately; the result does
not depend on the catalog map at all. -/
theorem resolve_none_is_none (m : List (Str × Str)) :
    uri_mapper m none = none := rfl

/-- C5: when neither the URI nor its percent-decoded form is a key of the
map, `resolve` returns the original input unchanged (and, being a total
function of the embedding, raises nothing). -/
theorem resolve_unmapped_identity (m : List (Str × Str)) (u : Str)
    (h1 : List.lookup (unquote u) m = none) (h2 : List.lookup u m = none) :
    uri_mapper m (some u) = some u := by
  simp [uri_mapper, h1, h2, pyOr, truthy]

/-- C5 (witness): an unmapped URN under the empty map comes back unchanged. -/
theorem resolve_unmapped_identity_witness :
    uri_mapper [] (some (str "urn:unknown")) = some (str "urn:unknown") :=
  resolve_unmapped_identity [] (str "urn:unknown") (by decide) (by decide)

/-- C6: an element lacking the occurrence, nillable and default attributes
extracts with `min_occurs = 1`, `max_occurs = 1`, `nillable = False` and a
null default (the output dictionary always carries these keys). -/
theorem extract_element_defaults (e : PyElement)
    (hmin : e.min_occurs = none) (hmax : e.max_occurs = none)
    (hnil : e.nillable = none) (hdef : e.default = none) :
    (extract_element_info e).min_occurs = some 1 ∧
    (extract_element_info e).max_occurs = some 1 ∧
    (extract_element_info e).nillable = false ∧
    (extract_element_info e).default = none := by
  simp [extract_element_info, hmin, hmax, hnil, hdef]

/-- C6 (witness): a bare named element with every optional attribute
missing. -/
theorem extract_element_defaults_witness :
    (extract_element_info ⟨none, some (str "e"), none, none, none, none, none⟩).min_occurs = some 1 ∧
    (extract_element_info ⟨none, some (str "e"), none, none, none, none, none⟩).max_occurs = some 1 ∧
    (extract_element_info ⟨none, some (str "e"), none, none, none, none, none⟩).nillable = false ∧
    (extract_element_info ⟨none, some (str "e"), none, none, none, none, none⟩).default = none :=
  extract_element_defaults ⟨none, some (str "e"), none, none, none, none, none⟩
    rfl rfl rfl rfl

/-- C7 (counterexample): a complex type with zero declared attributes
(present but empty collection) extracts with the `attributes` key omitted
entirely, not with an empty list — `if type_obj.attributes:` is false for
an empty collection. -/
theorem extract_type_zero_attrs_counterexample :
    zeroAttrType.attributes = some [] ∧
    (extract_type_info zeroAttrType).attributes = none := ⟨rfl, rfl⟩

/-- C7 (amended): for a complex type with N ≥ 1 declared attributes the
extracted `attributes` list has length exactly N and is the entrywise
image of the source collection in declaration order (no reordering, no
deduplication); for N = 0 the field is omitted. -/
theorem extract_type_attrs_order (t : PyType) (l : List PyAttr)
    (hl : t.attributes = some l) (hne : l ≠ []) :
    (extract_type_info t).attributes = some (l.map extractAttr) ∧
    (l.map extractAttr).length = l.length := by
  refine ⟨?_, by simp⟩
  simp [extract_type_info, hl, List.isEmpty_iff, hne]

/-- C7 (witness for the amended theorem): a type declaring two attributes
extracts both, in order. -/
theorem extract_type_attrs_order_witness :
    (extract_type_info
      { zeroAttrType with
          attributes := some [⟨some (str "a"), none, none, none⟩,
                              ⟨some (str "b"), none, none, none⟩] }).attributes =
      some [extractAttr ⟨some (str "a"), none, none, none⟩,
            extractAttr ⟨some (str "b"), none, none, none⟩] ∧
    ([⟨some (str "a"), none, none, none⟩,
      (⟨some (str "b"), none, none, none⟩ : PyAttr)].map extractAttr).length = 2 :=
  extract_type_attrs_order
    { zeroAttrType with
        attributes := some [⟨some (str "a"), none, none, none⟩,
                            ⟨some (str "b"), none, none, none⟩] }
    [⟨some (str "a"), none, none, none⟩, ⟨some (str "b"), none, none, none⟩]
    rfl (by decide)

/-- C8: when the content model lacks `iter_elements` or calling it raises,
`child_elements` is omitted from the result and extraction still returns a
complete description (the `except: pass` swallows the error; the embedded
extractor is a total function). -/
theorem extract_type_iteration_swallowed (t : PyType) (c : PyContent)
    (hc : t.content = some c)
    (h : c.iter_elements = .unsupported ∨ c.iter_elements = .failure) :
    (extract_type_info t).child_elements = none := by
  rcases h with h | h <;> simp [extract_type_info, hc, h]

/-- C8 (witness): a type whose content raises during iteration extracts
with no `child_elements`. -/
theorem extract_type_iteration_swallowed_witness :
    (extract_type_info
      { zeroAttrType with content := some ⟨str "XsdGroup", .failure⟩ }).child_elements = none :=
  extract_type_iteration_swallowed
    { zeroAttrType with content := some ⟨str "XsdGroup", .failure⟩ }
    ⟨str "XsdGroup", .failure⟩ rfl (Or.inr rfl)

/-- C10: a content model whose iteration succeeds with zero particles also
yields an omitted `child_elements` (`if elements:` is false for the empty
list), in both `extract_type_info` and `extract_complex_type_info`, and
the result is indistinguishable from the unsupported- and the
failing-iteration cases. -/
theorem extract_type_empty_iteration_omitted (t : PyType) (c : PyContent)
    (hc : t.content = some c) (h : c.iter_elements = .ok []) :
    (extract_type_info t).child_elements = none ∧
    (extract_complex_type_info t).child_elements = none ∧
    (extract_type_info t).child_elements =
      (extract_type_info { t with content := some ⟨c.className, .unsupported⟩ }).child_elements ∧
    (extract_type_info t).child_elements =
      (extract_type_info { t with content := some ⟨c.className, .failure⟩ }).child_elements := by
  refine ⟨?_, ?_, ?_, ?_⟩ <;>
    simp [extract_type_info, extract_complex_type_info, hc, h]

/-- C10 (witness): an empty sequence group. -/
theorem extract_type_empty_iteration_omitted_witness :
    (extract_type_info
      { zeroAttrType with content := some ⟨str "XsdGroup", .ok []⟩ }).child_elements = none :=
  (extract_type_empty_iteration_omitted
    { zeroAttrType with content := some ⟨str "XsdGroup", .ok []⟩ }
    ⟨str "XsdGroup", .ok []⟩ rfl rfl).1

end XsdExtract
